import Mathlib

/-!
Verification of the Sandbox Reconciliation & Runner Adapter subsystem
(daytona control plane): a shallow embedding of the runner-adapter factory,
the two protocol adapters, the destroy Action state machine, and the
organization suspension logic and sweeps, with theorems checking the design
document's claims against this embedding.
-/

namespace Daytona

/-- Canonical sandbox-state enumeration (`SandboxState` in
`enums/sandbox-state.enum`), members as used by the sources here. -/
inductive SandboxState where
  | creating | restoring | destroyed | destroying | started | stopped
  | starting | stopping | error | pullingSnapshot | unknown
  | archived | buildFailed
  deriving DecidableEq, Repr

/-- Canonical desired-state enumeration (`SandboxDesiredState`). -/
inductive SandboxDesiredState where
  | started | stopped | destroyed | archived
  deriving DecidableEq, Repr

/-- Canonical backup-state enumeration (`BackupState` in
`enums/backup-state.enum`): NONE, PENDING, IN_PROGRESS, COMPLETED, ERROR. -/
inductive BackupState where
  | none | pending | inProgress | completed | error
  deriving DecidableEq, Repr

/-- Modelled from the spec: the gRPC protocol backup-state enumeration
(`BackupState` of `@daytonaio/runner-grpc-client`, aliased
`RunnerBackupState`) is not under the sources; its member set is modelled
from the wire contract of §6 (a backup can be pending, in progress,
completed or failed, with an unspecified default), while the four named
members are exactly those matched by `RunnerAdapterV1.convertBackupState`
in the source. -/
inductive RunnerBackupState where
  | unspecified | pending | inProgress | completed | failed
  deriving DecidableEq, Repr

/-- Modelled from the spec: the legacy protocol backup-state enumeration
(`EnumsBackupState` of `@daytonaio/runner-api-client`) is not under the
sources; its member set is modelled from §6, which requires both wire
encodings to expose the identical `info → backupState` contract, so it too
reports a failed backup. The members `pending`, `inProgress` and
`completed` are exactly those matched by
`RunnerAdapterLegacy.convertBackupState` in the source. -/
inductive EnumsBackupState where
  | none | pending | inProgress | completed | failed
  deriving DecidableEq, Repr

/-- The natural correspondence between the two protocol backup-state
enumerations (same-named members correspond). -/
def backupCorr : EnumsBackupState → RunnerBackupState
  | .none => .unspecified
  | .pending => .pending
  | .inProgress => .inProgress
  | .completed => .completed
  | .failed => .failed

namespace RunnerAdapterV1

/-- `RunnerAdapterV1.convertBackupState` (runnerAdapter.v1, lines 67-80):
PENDING, IN_PROGRESS, COMPLETED map to their canonical namesakes, FAILED
maps to ERROR, everything else to NONE. -/
def convertBackupState : RunnerBackupState → BackupState
  | .pending => .pending
  | .inProgress => .inProgress
  | .completed => .completed
  | .failed => .error
  | _ => .none

end RunnerAdapterV1

namespace RunnerAdapterLegacy

/-- `RunnerAdapterLegacy.convertBackupState` (runnerAdapter.legacy.ts,
lines 63-74): PENDING, IN_PROGRESS, COMPLETED map to their canonical
namesakes, everything else (there is no Failed arm) to NONE. -/
def convertBackupState : EnumsBackupState → BackupState
  | .pending => .pending
  | .inProgress => .inProgress
  | .completed => .completed
  | _ => .none

end RunnerAdapterLegacy

/-! ## JavaScript error objects and the legacy response interceptor -/

/-- An HTTP response attached to an error, as inspected by the code
(`e.response.status`, `e.response.data.message`). -/
structure HttpResponse where
  status : Nat
  dataMessage : Option String
  deriving DecidableEq, Repr

/-- A JavaScript error value as the destroy Action inspects it:
`response?` is the optional `response` field (absent on a plain `Error`),
`message` the error message. -/
structure JsError where
  response? : Option HttpResponse
  message : String
  deriving DecidableEq, Repr

/-- `e.response && e.response.status === 404`: the error carries a
response whose status is 404. -/
def JsError.is404 (e : JsError) : Bool :=
  match e.response? with
  | some r => r.status == 404
  | none => false

namespace RunnerAdapterLegacy

/-- The legacy adapter's axios response interceptor (runnerAdapter.legacy.ts,
lines 104-113): every failed response is rethrown as a plain `Error`
carrying only the server-reported message
(`error.response?.data?.message || ... || error.message`) — in particular
the rethrown error has no `response` field. -/
def rethrowError (e : JsError) : JsError :=
  { response? := none
    message :=
      match e.response? with
      | some r =>
        match r.dataMessage with
        | some m => m
        | none => e.message
      | none => e.message }

/-- The legacy adapter's private client fields: `init` assigns
`apiClientSandbox` and `apiClientSnapshot` but never `apiClient`
(`some ()` stands for an assigned client, `none` for `undefined`). -/
structure State where
  apiClientSandbox : Option Unit
  apiClientSnapshot : Option Unit
  apiClient : Option Unit
  deriving DecidableEq, Repr

/-- `RunnerAdapterLegacy.init` (runnerAdapter.legacy.ts, lines 76-121):
builds the axios instance from the runner's url/key and assigns
`apiClientSandbox` and `apiClientSnapshot`; the `apiClient` field is left
unassigned. `init` itself never fails. -/
def init (_apiUrl _apiKey : String) : State :=
  { apiClientSandbox := some ()
    apiClientSnapshot := some ()
    apiClient := none }

/-- Outcome of a `healthCheck` call. -/
inductive HealthCheckResult where
  /-- returned normally -/
  | ok
  /-- threw `Error('Runner is not healthy')` -/
  | notHealthy
  /-- threw a TypeError dereferencing an unassigned client field -/
  | typeError
  deriving DecidableEq, Repr

/-- `RunnerAdapterLegacy.healthCheck` (runnerAdapter.legacy.ts, lines
123-128): calls `this.apiClient.healthCheck()` — a TypeError if
`apiClient` is unassigned — and throws unless the reported status is
`'ok'`. `reportedStatus` is the status the runner would report. -/
def healthCheck (st : State) (reportedStatus : String) : HealthCheckResult :=
  match st.apiClient with
  | none => .typeError
  | some _ => if reportedStatus = "ok" then .ok else .notHealthy

end RunnerAdapterLegacy

namespace RunnerAdapterV1

/-- `RunnerAdapterV1.getSnapshotLogs` (runnerAdapter.v1, lines 266-277):
awaits the runner's getSnapshotLogs call — `fetched` is that call's
outcome for the given `snapshotRef`/`follow` — and returns the literal
string `'TODO'`, discarding the fetched log content. A failed fetch
propagates. -/
def getSnapshotLogs (fetched : Except JsError String) (_follow : Bool) :
    Except JsError String :=
  match fetched with
  | .error e => .error e
  | .ok _ => .ok "TODO"

end RunnerAdapterV1

/-! ## Runner adapter factory -/

/-- The two concrete adapter implementations. -/
inductive AdapterKind where
  | legacy | v1
  deriving DecidableEq, Repr

/-- Observable steps the factory takes while resolving an adapter. -/
inductive FactoryEvent where
  /-- `moduleRef.create(...)` instantiated an adapter of this kind -/
  | constructed (k : AdapterKind)
  /-- `adapter.init(runner)` was invoked on an adapter of this kind -/
  | initCalled (k : AdapterKind)
  deriving DecidableEq, Repr

namespace RunnerAdapterFactory

/-- `RunnerAdapterFactory.create` (runnerAdapter.ts, lines 47-62):
dispatch on `runner.version` — `'0'` constructs the legacy adapter and
inits it, `'1'` constructs the v1 adapter and inits it, any other value
throws `Unsupported runner version: ...`. `initResult` gives the outcome
of each adapter's own `init` (which may itself throw, e.g. v1 on a bad
url scheme); an init failure propagates. Returns the call's outcome
together with the trace of factory events. -/
def create (version : String) (initResult : AdapterKind → Except JsError Unit) :
    Except JsError AdapterKind × List FactoryEvent :=
  match version with
  | "0" =>
    match initResult .legacy with
    | .ok _ => (.ok .legacy, [.constructed .legacy, .initCalled .legacy])
    | .error e => (.error e, [.constructed .legacy, .initCalled .legacy])
  | "1" =>
    match initResult .v1 with
    | .ok _ => (.ok .v1, [.constructed .v1, .initCalled .v1])
    | .error e => (.error e, [.constructed .v1, .initCalled .v1])
  | v =>
    (.error { response? := none, message := "Unsupported runner version: " ++ v }, [])

end RunnerAdapterFactory

/-! ## The destroy Action state machine -/

/-- The two re-drive signals a Sandbox Action returns (`SYNC_AGAIN`,
`DONT_SYNC_AGAIN` from sandbox.manager). -/
inductive SyncSignal where
  | syncAgain | dontSyncAgain
  deriving DecidableEq, Repr

/-- Runner state (`RunnerState`): READY or not. -/
inductive RunnerState where
  | ready | notReady
  deriving DecidableEq, Repr

/-- The fields of a sandbox the destroy Action reads. -/
structure Sandbox where
  id : String
  state : SandboxState
  deriving DecidableEq, Repr

/-- What the runner's `info` call reports. -/
structure RunnerSandboxInfo where
  state : SandboxState
  backupState : BackupState
  deriving DecidableEq, Repr

/-- Outcome of one adapter call: a value, or a thrown error. -/
inductive CallResult (α : Type) where
  | ok (a : α)
  | err (e : JsError)
  deriving DecidableEq, Repr

/-- The environment one `run` invocation executes against: the state of
the sandbox's runner (`runnerService.findOne`), and the answers the
runner adapter would give to the (at most one of each) `info`,
`removeDestroyed` and `destroy` calls. Adapter creation by the factory is
taken as succeeding. -/
structure DestroyEnv where
  runnerState : RunnerState
  infoResult : CallResult RunnerSandboxInfo
  removeDestroyedResult : CallResult Unit
  destroyResult : CallResult Unit
  deriving DecidableEq, Repr

/-- The adapter calls `run` can issue. -/
inductive AdapterCall where
  | info | removeDestroyed | destroy
  deriving DecidableEq, Repr

/-- An error propagating out of `run`. -/
inductive ActionError where
  /-- `throw e`: the caught error itself was rethrown -/
  | rethrown (e : JsError)
  /-- a TypeError from reading `e.response.status` when `e.response` is
  `undefined` (the default branch's catch has no `!e.response` guard) -/
  | typeError
  deriving DecidableEq, Repr

deriving instance DecidableEq for Except

/-- What one `run` invocation did: the `updateSandboxState` writes it
performed, the adapter calls it issued, and its outcome (a signal, or a
propagated error). -/
structure RunOutput where
  writes : List SandboxState
  calls : List AdapterCall
  outcome : Except ActionError SyncSignal
  deriving DecidableEq, Repr

namespace SandboxDestroyAction

/-- The DESTROYING branch's catch (part_001, lines 341-346):
`if (!e.response || e.response.status !== 404) throw e` — an error
without a response, or with a non-404 status, is rethrown; a 404 is
swallowed. `some` is the propagated error, `none` means swallowed. -/
def catchDestroying (e : JsError) : Option ActionError :=
  match e.response? with
  | none => some (.rethrown e)
  | some r => if r.status ≠ 404 then some (.rethrown e) else none

/-- The default branch's catch (part_001, lines 359-364):
`if (e.response.status !== 404) throw e` — reading `.status` of an
absent response raises a TypeError; a non-404 status rethrows the error;
a 404 is swallowed. -/
def catchDefault (e : JsError) : Option ActionError :=
  match e.response? with
  | none => some .typeError
  | some r => if r.status ≠ 404 then some (.rethrown e) else none

/-- `SandboxDestroyAction.run` (part_001, lines 317-369), branch by
branch: ARCHIVED is marked DESTROYED directly with no runner call and
DONT_SYNC_AGAIN; a non-READY runner defers with DONT_SYNC_AGAIN; then a
switch on the sandbox state — DESTROYED is a no-op; DESTROYING queries
`info`, calls `removeDestroyed` when the runner reports DESTROYED or
ERROR, treats a 404 as already destroyed, marks DESTROYED and returns
SYNC_AGAIN; the default branch queries `info`, no-ops when the runner
already reports DESTROYED, otherwise calls `destroy`, treats a 404 as
success, marks DESTROYING and returns SYNC_AGAIN. Uncaught errors
propagate before any state write. -/
def run (sandbox : Sandbox) (env : DestroyEnv) : RunOutput :=
  if sandbox.state = SandboxState.archived then
    { writes := [SandboxState.destroyed], calls := [], outcome := .ok .dontSyncAgain }
  else if env.runnerState ≠ RunnerState.ready then
    { writes := [], calls := [], outcome := .ok .dontSyncAgain }
  else
    match sandbox.state with
    | SandboxState.destroyed =>
      { writes := [], calls := [], outcome := .ok .dontSyncAgain }
    | SandboxState.destroying =>
      match env.infoResult with
      | .err e =>
        match catchDestroying e with
        | some err => { writes := [], calls := [.info], outcome := .error err }
        | none =>
          { writes := [SandboxState.destroyed], calls := [.info], outcome := .ok .syncAgain }
      | .ok i =>
        if i.state = SandboxState.destroyed ∨ i.state = SandboxState.error then
          match env.removeDestroyedResult with
          | .err e =>
            match catchDestroying e with
            | some err =>
              { writes := [], calls := [.info, .removeDestroyed], outcome := .error err }
            | none =>
              { writes := [SandboxState.destroyed], calls := [.info, .removeDestroyed],
                outcome := .ok .syncAgain }
          | .ok _ =>
            { writes := [SandboxState.destroyed], calls := [.info, .removeDestroyed],
              outcome := .ok .syncAgain }
        else
          { writes := [SandboxState.destroyed], calls := [.info], outcome := .ok .syncAgain }
    | _ =>
      match env.infoResult with
      | .err e =>
        match catchDefault e with
        | some err => { writes := [], calls := [.info], outcome := .error err }
        | none =>
          { writes := [SandboxState.destroying], calls := [.info], outcome := .ok .syncAgain }
      | .ok i =>
        if i.state = SandboxState.destroyed then
          { writes := [], calls := [.info], outcome := .ok .dontSyncAgain }
        else
          match env.destroyResult with
          | .err e =>
            match catchDefault e with
            | some err => { writes := [], calls := [.info, .destroy], outcome := .error err }
            | none =>
              { writes := [SandboxState.destroying], calls := [.info, .destroy],
                outcome := .ok .syncAgain }
          | .ok _ =>
            { writes := [SandboxState.destroying], calls := [.info, .destroy],
              outcome := .ok .syncAgain }

end SandboxDestroyAction

/-! ## Organization suspension logic and the suspension sweeps

Times are milliseconds since the epoch (`Date.now()`), as `Int`. -/

/-- One day in milliseconds (`1 * 1000 * 60 * 60 * 24`). -/
def dayMs : Int := 1000 * 60 * 60 * 24

/-- The fields of an organization the suspension logic reads
(`suspendedAt`, `suspendedUntil` are nullable timestamps). -/
structure Organization where
  id : String
  suspended : Bool
  suspendedAt : Option Int
  suspendedUntil : Option Int
  suspensionReason : Option String
  deriving DecidableEq, Repr

/-- A sandbox row as the stop sweep queries it. -/
structure SandboxRow where
  id : String
  organizationId : String
  desiredState : SandboxDesiredState
  state : SandboxState
  deriving DecidableEq, Repr

/-- A snapshot row as joined by the snapshot-runner sweep. -/
structure SnapshotRow where
  internalName : String
  general : Bool
  organizationId : String
  deriving DecidableEq, Repr

/-- A snapshot-runner row as the snapshot-runner sweep queries it. -/
structure SnapshotRunnerRow where
  id : String
  snapshotRef : String
  createdAt : Int
  deriving DecidableEq, Repr

/-- The persisted tables the sweeps read. -/
structure Db where
  orgs : List Organization
  sandboxes : List SandboxRow
  snapshots : List SnapshotRow
  snapshotRunners : List SnapshotRunnerRow
  deriving DecidableEq, Repr

namespace OrganizationService

/-- The `suspendedUntil: Or(IsNull(), MoreThan(new Date()))` condition of
`findSuspended`: null, or strictly greater than now. -/
def untilCondition (now : Int) (until? : Option Int) : Bool :=
  match until? with
  | none => true
  | some u => decide (u > now)

/-- The where-clause of `OrganizationService.findSuspended`
(organization.service.ts, lines 110-121): `suspended: true`,
`suspendedUntil` null or greater than now, and a `suspendedAt` bound
assembled by two object spreads over the same `suspendedAt` key. The
second spread overwrites the first, so when `suspendedAfter` is given
only `suspendedAt: MoreThan(suspendedAfter)` applies and a
simultaneously given `suspendedAt: LessThan(suspendedBefore)` is
discarded; the `LessThan` bound applies only when `suspendedAfter` is
absent. A null `suspendedAt` satisfies neither SQL comparison. -/
def findSuspendedWhere (now : Int) (suspendedBefore? suspendedAfter? : Option Int)
    (org : Organization) : Bool :=
  org.suspended
  && untilCondition now org.suspendedUntil
  && (match suspendedAfter? with
      | some x =>
        match org.suspendedAt with
        | some a => decide (a > x)
        | none => false
      | none =>
        match suspendedBefore? with
        | some b =>
          match org.suspendedAt with
          | some a => decide (a < b)
          | none => false
        | none => true)

/-- `OrganizationService.findSuspended` (organization.service.ts, lines
110-121): the matching organizations, limited to `take || 100` rows
(`0` and an omitted `take` both fall back to 100). -/
def findSuspended (now : Int) (orgs : List Organization)
    (suspendedBefore? suspendedAfter? : Option Int) (take? : Option Nat) :
    List Organization :=
  (orgs.filter (findSuspendedWhere now suspendedBefore? suspendedAfter?)).take
    (match take? with
     | some t => if t = 0 then 100 else t
     | none => 100)

/-- Outcome of `assertOrganizationIsNotSuspended`: returned normally, or
threw a ForbiddenException with the given message. -/
inductive AssertResult where
  | ok
  | forbidden (msg : String)
  deriving DecidableEq, Repr

/-- `OrganizationService.assertOrganizationIsNotSuspended`
(organization.service.ts, lines 603-615): returns when not suspended;
otherwise, when `suspendedUntil` is absent or still in the future, throws
a ForbiddenException carrying `suspensionReason` when that is a non-empty
string (JavaScript truthiness); a `suspendedUntil` that has passed
returns normally. -/
def assertOrganizationIsNotSuspended (now : Int) (org : Organization) : AssertResult :=
  if !org.suspended then .ok
  else if (match org.suspendedUntil with
           | some u => decide (u > now)
           | none => true) then
    match org.suspensionReason with
    | some r =>
      if r ≠ "" then .forbidden ("Organization is suspended: " ++ r)
      else .forbidden "Organization is suspended"
    | none => .forbidden "Organization is suspended"
  else .ok

/-- The organization selection both sweeps perform:
`findSuspended(new Date(Date.now() - 1 day), new Date(Date.now() - 7 days))`.
Both bounds are passed, but because the second spread in `findSuspended`
overwrites the `suspendedAt` key, the 24-hour `LessThan` bound is
discarded and the effective selection is the actively suspended
organizations with `suspendedAt` strictly within the last 7 days. -/
def suspendedWindowOrgs (now : Int) (orgs : List Organization) : List Organization :=
  findSuspended now orgs (some (now - 1 * dayMs)) (some (now - 7 * dayMs)) none

/-- Observable steps of one sweep run: redis lock operations, the two
queries, and the fire-and-forget event emissions. -/
inductive SweepEvent where
  | lockAcquired | lockReleased | orgQuery | sandboxQuery | snapshotRunnerQuery
  /-- `OrganizationEvents.SUSPENDED_SANDBOX_STOPPED` carrying the sandbox id -/
  | emitStop (sandboxId : String)
  /-- `OrganizationEvents.SUSPENDED_SNAPSHOT_RUNNER_REMOVED` carrying the runner id -/
  | emitRemove (snapshotRunnerId : String)
  deriving DecidableEq, Repr

/-- The environment a sweep run executes against: whether the redis lock
is granted, and whether the organization query or the per-item
(sandbox / snapshot-runner) query throws. -/
structure SweepEnv where
  lockGranted : Bool
  orgQueryFail : Option JsError
  itemQueryFail : Option JsError
  deriving DecidableEq, Repr

/-- What one sweep run did and how it ended. -/
structure SweepRun where
  trace : List SweepEvent
  outcome : Except JsError Unit
  deriving DecidableEq, Repr

/-- The sandbox rows the stop sweep selects (organization.service.ts,
lines 514-520): `organizationId In(ids)`, `desiredState` STARTED, `state`
not in (ERROR, BUILD_FAILED). -/
def stopSweepSandboxes (ids : List String) (db : Db) : List SandboxRow :=
  db.sandboxes.filter (fun s =>
    decide (s.organizationId ∈ ids)
    && decide (s.desiredState = SandboxDesiredState.started)
    && !decide (s.state ∈ [SandboxState.error, SandboxState.buildFailed]))

/-- `OrganizationService.stopSuspendedOrganizationSandboxes`
(organization.service.ts, lines 491-530): bail out when the 60-second
lock is not granted; select the suspension-window organizations; when
none match, release the lock and return without the sandbox query;
otherwise select the sandboxes to stop, emit one
SUSPENDED_SANDBOX_STOPPED event per sandbox (fire and forget, not
awaited), and release the lock. There is no try/finally: an exception
from either query propagates before the `redis.del` of the lock key. -/
def stopSuspendedOrganizationSandboxes (now : Int) (db : Db) (env : SweepEnv) : SweepRun :=
  if !env.lockGranted then { trace := [], outcome := .ok () }
  else
    match env.orgQueryFail with
    | some e => { trace := [.lockAcquired, .orgQuery], outcome := .error e }
    | none =>
      let ids := (suspendedWindowOrgs now db.orgs).map (·.id)
      if ids.length = 0 then
        { trace := [.lockAcquired, .orgQuery, .lockReleased], outcome := .ok () }
      else
        match env.itemQueryFail with
        | some e => { trace := [.lockAcquired, .orgQuery, .sandboxQuery], outcome := .error e }
        | none =>
          { trace := [.lockAcquired, .orgQuery, .sandboxQuery]
              ++ (stopSweepSandboxes ids db).map (fun s => SweepEvent.emitStop s.id)
              ++ [.lockReleased]
            outcome := .ok () }

/-- Insertion into a list kept ascending by `createdAt`. -/
def insertByCreatedAt (r : SnapshotRunnerRow) :
    List SnapshotRunnerRow → List SnapshotRunnerRow
  | [] => [r]
  | x :: xs =>
    if r.createdAt < x.createdAt then r :: x :: xs else x :: insertByCreatedAt r xs

/-- `ORDER BY snapshotRunner.createdAt ASC` as an insertion sort. -/
def sortByCreatedAt : List SnapshotRunnerRow → List SnapshotRunnerRow
  | [] => []
  | x :: xs => insertByCreatedAt x (sortByCreatedAt xs)

/-- The snapshot-runner rows the removal sweep selects
(organization.service.ts, lines 553-559): inner join on
`snapshot.internalName = snapshotRunner.snapshotRef` with
`snapshot.general = false` and `snapshot.organizationId` among the
suspended organizations, ordered by `createdAt` ascending. -/
def removeSweepRunners (ids : List String) (db : Db) : List SnapshotRunnerRow :=
  sortByCreatedAt (db.snapshotRunners.filter (fun r =>
    db.snapshots.any (fun s =>
      decide (s.internalName = r.snapshotRef)
      && !s.general
      && decide (s.organizationId ∈ ids))))

/-- `OrganizationService.removeSuspendedOrganizationSnapshotRunners`
(organization.service.ts, lines 532-569): same shape as the stop sweep —
lock, organization selection, early release on an empty selection,
otherwise the snapshot-runner query, one SUSPENDED_SNAPSHOT_RUNNER_REMOVED
event per runner, and the lock release; again no try/finally around the
queries. -/
def removeSuspendedOrganizationSnapshotRunners (now : Int) (db : Db) (env : SweepEnv) :
    SweepRun :=
  if !env.lockGranted then { trace := [], outcome := .ok () }
  else
    match env.orgQueryFail with
    | some e => { trace := [.lockAcquired, .orgQuery], outcome := .error e }
    | none =>
      let ids := (suspendedWindowOrgs now db.orgs).map (·.id)
      if ids.length = 0 then
        { trace := [.lockAcquired, .orgQuery, .lockReleased], outcome := .ok () }
      else
        match env.itemQueryFail with
        | some e =>
          { trace := [.lockAcquired, .orgQuery, .snapshotRunnerQuery], outcome := .error e }
        | none =>
          { trace := [.lockAcquired, .orgQuery, .snapshotRunnerQuery]
              ++ (removeSweepRunners ids db).map (fun r => SweepEvent.emitRemove r.id)
              ++ [.lockReleased]
            outcome := .ok () }

end OrganizationService

/-- The enforcement notion of an actively suspended organization as the
code implements it: the `suspended` flag set, and `suspendedUntil` null
or strictly in the future. -/
def activelySuspendedSpec (now : Int) (org : Organization) : Bool :=
  org.suspended
  && (match org.suspendedUntil with
      | none => true
      | some u => decide (u > now))

/-! ## Theorems -/

/-- C7: `RunnerAdapterFactory.create` with version `'0'` constructs the
legacy adapter and calls its `init` before returning it, with `'1'` the
v1 adapter likewise; any other version string fails with the
unsupported-version error without constructing an adapter or invoking
`init` (empty event trace). -/
theorem C7_factory_dispatch :
    ∀ (version : String) (initResult : AdapterKind → Except JsError Unit),
      (version = "0" →
        (RunnerAdapterFactory.create version initResult).2
            = [.constructed .legacy, .initCalled .legacy]
        ∧ (initResult .legacy = .ok () →
            (RunnerAdapterFactory.create version initResult).1 = .ok .legacy))
      ∧ (version = "1" →
        (RunnerAdapterFactory.create version initResult).2
            = [.constructed .v1, .initCalled .v1]
        ∧ (initResult .v1 = .ok () →
            (RunnerAdapterFactory.create version initResult).1 = .ok .v1))
      ∧ (version ≠ "0" → version ≠ "1" →
        RunnerAdapterFactory.create version initResult
          = (.error { response? := none
                      message := "Unsupported runner version: " ++ version }, [])) := by
  intro version initResult
  refine ⟨?_, ?_, ?_⟩
  · rintro rfl
    cases h : initResult .legacy with
    | ok u => cases u; exact ⟨by simp [RunnerAdapterFactory.create, h], fun _ => by
        simp [RunnerAdapterFactory.create, h]⟩
    | error e => exact ⟨by simp [RunnerAdapterFactory.create, h], fun hok => by
        simp at hok⟩
  · rintro rfl
    cases h : initResult .v1 with
    | ok u => cases u; exact ⟨by simp [RunnerAdapterFactory.create, h], fun _ => by
        simp [RunnerAdapterFactory.create, h]⟩
    | error e => exact ⟨by simp [RunnerAdapterFactory.create, h], fun hok => by
        simp at hok⟩
  · intro h0 h1
    unfold RunnerAdapterFactory.create
    split
    · exact absurd rfl h0
    · exact absurd rfl h1
    · rfl

/-- C7 witness: at version `'2'` the factory fails with the
unsupported-version error and an empty event trace; at `'0'` with a
succeeding init it yields the legacy adapter having constructed and
inited it. -/
theorem C7_factory_dispatch_witness :
    (RunnerAdapterFactory.create "2" (fun _ => .ok ())
      = (.error { response? := none, message := "Unsupported runner version: 2" }, []))
    ∧ (RunnerAdapterFactory.create "0" (fun _ => .ok ())).2
        = [.constructed .legacy, .initCalled .legacy]
    ∧ (RunnerAdapterFactory.create "0" (fun _ => .ok ())).1 = .ok .legacy :=
  ⟨(C7_factory_dispatch "2" (fun _ => .ok ())).2.2 (by decide) (by decide),
   ((C7_factory_dispatch "0" (fun _ => .ok ())).1 rfl).1,
   ((C7_factory_dispatch "0" (fun _ => .ok ())).1 rfl).2 rfl⟩

/-- C8: for every runner and every health status the runner would report,
`RunnerAdapterLegacy.healthCheck` invoked after `init` fails with a
TypeError: `init` assigns `apiClientSandbox` and `apiClientSnapshot` but
never the `apiClient` field that `healthCheck` dereferences. -/
theorem C8_legacy_healthCheck_always_fails :
    ∀ (apiUrl apiKey reportedStatus : String),
      RunnerAdapterLegacy.healthCheck (RunnerAdapterLegacy.init apiUrl apiKey)
          reportedStatus
        = RunnerAdapterLegacy.HealthCheckResult.typeError
      ∧ (RunnerAdapterLegacy.init apiUrl apiKey).apiClientSandbox = some ()
      ∧ (RunnerAdapterLegacy.init apiUrl apiKey).apiClient = none := by
  intro apiUrl apiKey reportedStatus
  exact ⟨rfl, rfl, rfl⟩

/-- C9: for every successfully fetched log content and every value of
`follow`, `RunnerAdapterV1.getSnapshotLogs` returns the constant string
`'TODO'`; the fetched content is discarded (the result does not depend
on it). -/
theorem C9_getSnapshotLogs_constant_TODO :
    (∀ (logs : String) (follow : Bool),
      RunnerAdapterV1.getSnapshotLogs (.ok logs) follow = .ok "TODO")
    ∧ (∀ (logs₁ logs₂ : String) (follow : Bool),
      RunnerAdapterV1.getSnapshotLogs (.ok logs₁) follow
        = RunnerAdapterV1.getSnapshotLogs (.ok logs₂) follow) :=
  ⟨fun _ _ => rfl, fun _ _ _ => rfl⟩

/-- C10 counterexample: at the failed backup state the two adapters'
mappings disagree under the natural correspondence — the legacy mapping
yields NONE (its switch has no Failed arm) while the v1 mapping yields
ERROR. -/
theorem C10_backup_maps_disagree_on_failed :
    RunnerAdapterLegacy.convertBackupState EnumsBackupState.failed
        ≠ RunnerAdapterV1.convertBackupState (backupCorr EnumsBackupState.failed)
    ∧ RunnerAdapterLegacy.convertBackupState EnumsBackupState.failed = BackupState.none
    ∧ RunnerAdapterV1.convertBackupState (backupCorr EnumsBackupState.failed)
        = BackupState.error := by
  decide

/-- C10 amended: the two backup-state mappings agree on every protocol
backup state other than the failed one, and the legacy mapping never
yields the canonical ERROR state (so `RunnerAdapterLegacy.info` can never
report backupState ERROR, unlike `RunnerAdapterV1.info`). -/
theorem C10_backup_maps_agree_except_failed :
    (∀ s : EnumsBackupState, s ≠ EnumsBackupState.failed →
      RunnerAdapterLegacy.convertBackupState s
        = RunnerAdapterV1.convertBackupState (backupCorr s))
    ∧ (∀ s : EnumsBackupState,
      RunnerAdapterLegacy.convertBackupState s ≠ BackupState.error)
    ∧ RunnerAdapterV1.convertBackupState RunnerBackupState.failed = BackupState.error := by
  refine ⟨?_, ?_, rfl⟩
  · intro s hs
    cases s <;> first | rfl | exact absurd rfl hs
  · intro s
    cases s <;> decide

/-- C10 witness: the amended agreement applied at the completed backup
state. -/
theorem C10_backup_maps_agree_witness :
    RunnerAdapterLegacy.convertBackupState EnumsBackupState.completed
      = RunnerAdapterV1.convertBackupState (backupCorr EnumsBackupState.completed) :=
  C10_backup_maps_agree_except_failed.1 EnumsBackupState.completed (by decide)

/-- C2 counterexample: at now = 1000, an organization with the
`suspended` flag set and `suspendedUntil = 500` — in the past — is
neither selected by the `findSuspended` where-clause nor rejected by
`assertOrganizationIsNotSuspended`, contradicting the claim that a
suspended organization with `suspendedUntil` in the past counts as
actively suspended for enforcement. -/
theorem C2_past_until_not_enforced :
    let org : Organization :=
      { id := "org-past", suspended := true, suspendedAt := some 0,
        suspendedUntil := some 500, suspensionReason := some "billing" }
    org.suspended = true ∧ (500 : Int) < 1000
    ∧ OrganizationService.findSuspendedWhere 1000 none none org = false
    ∧ OrganizationService.assertOrganizationIsNotSuspended 1000 org
        = OrganizationService.AssertResult.ok := by
  decide

/-- C2 amended: an organization counts as actively suspended for
enforcement — selected by the `findSuspended` where-clause and rejected
by `assertOrganizationIsNotSuspended` — exactly when its `suspended` flag
is set and its `suspendedUntil` is null or strictly in the future, for
every organization and every current time. -/
theorem C2_actively_suspended_characterization :
    ∀ (now : Int) (org : Organization),
      OrganizationService.findSuspendedWhere now none none org
          = activelySuspendedSpec now org
      ∧ (OrganizationService.assertOrganizationIsNotSuspended now org
            ≠ OrganizationService.AssertResult.ok
          ↔ activelySuspendedSpec now org = true) := by
  intro now org
  obtain ⟨i, susp, at?, u?, r?⟩ := org
  constructor
  · cases susp <;> cases u? <;>
      simp [OrganizationService.findSuspendedWhere, OrganizationService.untilCondition,
        activelySuspendedSpec]
  · cases susp
    · simp [OrganizationService.assertOrganizationIsNotSuspended, activelySuspendedSpec]
    · cases u? with
      | none =>
        cases r? with
        | none =>
          simp [OrganizationService.assertOrganizationIsNotSuspended, activelySuspendedSpec]
        | some r =>
          by_cases hr : r = "" <;>
            simp [OrganizationService.assertOrganizationIsNotSuspended,
              activelySuspendedSpec, hr]
      | some u =>
        by_cases hu : u > now
        · cases r? with
          | none =>
            simp [OrganizationService.assertOrganizationIsNotSuspended,
              activelySuspendedSpec, hu]
          | some r =>
            by_cases hr : r = "" <;>
              simp [OrganizationService.assertOrganizationIsNotSuspended,
                activelySuspendedSpec, hu, hr]
        · simp [OrganizationService.assertOrganizationIsNotSuspended,
            activelySuspendedSpec, hu]

/-- C1: evaluation of the destroy Action at the failing input. At an
axios-level 404 the legacy adapter's response interceptor rethrows a
plain Error with no `response` field; fed to the DESTROYING branch the
Action rethrows it (instead of treating the 404 as success) and performs
no state write, so the sandbox never reaches DESTROYED and the second
invocation raises; in the default branch the same error raises a
TypeError from reading `e.response.status`. The raw (un-normalized) 404
by contrast is treated as success. -/
theorem C1_legacy_404_destroy_raises :
    let axios404 : JsError :=
      { response? := some { status := 404, dataMessage := some "sandbox not found" }
        message := "Request failed with status code 404" }
    let legacyErr := RunnerAdapterLegacy.rethrowError axios404
    let envLegacy : DestroyEnv :=
      { runnerState := .ready, infoResult := .err legacyErr
        removeDestroyedResult := .ok (), destroyResult := .ok () }
    let envRaw : DestroyEnv :=
      { runnerState := .ready, infoResult := .err axios404
        removeDestroyedResult := .ok (), destroyResult := .ok () }
    legacyErr.response? = none
    ∧ SandboxDestroyAction.run { id := "sbx-1", state := .destroying } envLegacy
        = { writes := [], calls := [.info]
            outcome := .error (.rethrown legacyErr) }
    ∧ SandboxDestroyAction.run { id := "sbx-1", state := .started } envLegacy
        = { writes := [], calls := [.info], outcome := .error .typeError }
    ∧ SandboxDestroyAction.run { id := "sbx-1", state := .destroying } envRaw
        = { writes := [SandboxState.destroyed], calls := [.info]
            outcome := .ok .syncAgain } := by
  decide

/-- C3 counterexample: the ARCHIVED branch changes the persisted sandbox
state (it writes DESTROYED) yet returns DONT_SYNC_AGAIN, refuting the
claim that every state-changing branch returns SYNC_AGAIN. -/
theorem C3_archived_branch_writes_but_dont_sync :
    SandboxDestroyAction.run { id := "sbx-a", state := .archived }
        { runnerState := .ready
          infoResult := .ok { state := .started, backupState := .none }
          removeDestroyedResult := .ok (), destroyResult := .ok () }
      = { writes := [SandboxState.destroyed], calls := []
          outcome := .ok .dontSyncAgain } := by
  decide

/-- C3 amended: for every input sandbox and runner answer, `run` returns
SYNC_AGAIN exactly on the state-changing branches other than ARCHIVED;
the ARCHIVED branch marks DESTROYED yet returns DONT_SYNC_AGAIN; and an
error outcome never comes with a state change. -/
theorem C3_signal_vs_writes :
    ∀ (s : Sandbox) (env : DestroyEnv),
      ((SandboxDestroyAction.run s env).outcome = .ok SyncSignal.syncAgain
        ↔ ((SandboxDestroyAction.run s env).writes ≠ []
            ∧ s.state ≠ SandboxState.archived))
      ∧ (s.state = SandboxState.archived →
          SandboxDestroyAction.run s env
            = { writes := [SandboxState.destroyed], calls := []
                outcome := .ok SyncSignal.dontSyncAgain })
      ∧ (∀ err, (SandboxDestroyAction.run s env).outcome = .error err →
          (SandboxDestroyAction.run s env).writes = []) := by
  intro s env
  refine ⟨?_, ?_, ?_⟩
  · unfold SandboxDestroyAction.run
    (repeat' split) <;> simp_all
  · intro h
    unfold SandboxDestroyAction.run
    (repeat' split) <;> simp_all
  · intro err
    unfold SandboxDestroyAction.run
    (repeat' split) <;> simp_all

/-- C3 witness: the amended ARCHIVED clause at a concrete archived
sandbox. -/
theorem C3_signal_vs_writes_witness :
    SandboxDestroyAction.run { id := "sbx-w", state := .archived }
        { runnerState := .notReady
          infoResult := .ok { state := .started, backupState := .none }
          removeDestroyedResult := .ok (), destroyResult := .ok () }
      = { writes := [SandboxState.destroyed], calls := []
          outcome := .ok SyncSignal.dontSyncAgain } :=
  (C3_signal_vs_writes { id := "sbx-w", state := .archived }
    { runnerState := .notReady
      infoResult := .ok { state := .started, backupState := .none }
      removeDestroyedResult := .ok (), destroyResult := .ok () }).2.1 rfl

/-- The DESTROYING branch's catch swallows an error exactly when it
carries a 404 response. -/
theorem catchDestroying_none_iff (e : JsError) :
    SandboxDestroyAction.catchDestroying e = none ↔ e.is404 = true := by
  obtain ⟨resp, msg⟩ := e
  cases resp with
  | none => simp [SandboxDestroyAction.catchDestroying, JsError.is404]
  | some r =>
    by_cases h : r.status = 404 <;>
      simp [SandboxDestroyAction.catchDestroying, JsError.is404, h]

/-- The DESTROYING branch's catch propagates a non-404 error by
rethrowing it. -/
theorem catchDestroying_some_iff (e : JsError) (err : ActionError) :
    SandboxDestroyAction.catchDestroying e = some err
      ↔ (e.is404 = false ∧ err = ActionError.rethrown e) := by
  obtain ⟨resp, msg⟩ := e
  cases resp with
  | none =>
    simp [SandboxDestroyAction.catchDestroying, JsError.is404]
    exact eq_comm
  | some r =>
    by_cases h : r.status = 404
    · simp [SandboxDestroyAction.catchDestroying, JsError.is404, h]
    · simp [SandboxDestroyAction.catchDestroying, JsError.is404, h]
      exact eq_comm

/-- C6: for a sandbox in state DESTROYING with a READY runner, `run`
issues the `info` query; it calls `removeDestroyed` exactly when the
runner reports DESTROYED or ERROR; every normal return marks the sandbox
DESTROYED and signals SYNC_AGAIN; a 404 from the runner is treated as
already destroyed (still marking DESTROYED); and a non-404 error from
the `info` query propagates with no state change. -/
theorem C6_destroying_ready_behavior :
    ∀ (s : Sandbox) (env : DestroyEnv),
      s.state = SandboxState.destroying → env.runnerState = RunnerState.ready →
      (AdapterCall.info ∈ (SandboxDestroyAction.run s env).calls)
      ∧ (AdapterCall.removeDestroyed ∈ (SandboxDestroyAction.run s env).calls
          ↔ ∃ i, env.infoResult = CallResult.ok i
              ∧ (i.state = SandboxState.destroyed ∨ i.state = SandboxState.error))
      ∧ (∀ sig, (SandboxDestroyAction.run s env).outcome = .ok sig →
          sig = SyncSignal.syncAgain
          ∧ (SandboxDestroyAction.run s env).writes = [SandboxState.destroyed])
      ∧ (∀ e, env.infoResult = CallResult.err e → e.is404 = true →
          (SandboxDestroyAction.run s env).outcome = .ok SyncSignal.syncAgain
          ∧ (SandboxDestroyAction.run s env).writes = [SandboxState.destroyed])
      ∧ (∀ e, env.infoResult = CallResult.err e → e.is404 = false →
          (SandboxDestroyAction.run s env).outcome
              = .error (ActionError.rethrown e)
          ∧ (SandboxDestroyAction.run s env).writes = []) := by
  intro s env h1 h2
  refine ⟨?_, ?_, ?_, ?_, ?_⟩ <;>
  · unfold SandboxDestroyAction.run
    (repeat' split) <;> simp_all [catchDestroying_none_iff, catchDestroying_some_iff]

/-- C6 witness: runner reports DESTROYED — `removeDestroyed` is called,
the sandbox is marked DESTROYED and the signal is SYNC_AGAIN; applied at
the concrete destroying sandbox. -/
theorem C6_destroying_ready_behavior_witness :
    AdapterCall.removeDestroyed
        ∈ (SandboxDestroyAction.run { id := "sbx-6", state := .destroying }
            { runnerState := .ready
              infoResult := .ok { state := .destroyed, backupState := .none }
              removeDestroyedResult := .ok (), destroyResult := .ok () }).calls
    ∧ (SandboxDestroyAction.run { id := "sbx-6", state := .destroying }
          { runnerState := .ready
            infoResult := .ok { state := .destroyed, backupState := .none }
            removeDestroyedResult := .ok (), destroyResult := .ok () }).outcome
        = .ok SyncSignal.syncAgain :=
  ⟨((C6_destroying_ready_behavior { id := "sbx-6", state := .destroying }
      { runnerState := .ready
        infoResult := .ok { state := .destroyed, backupState := .none }
        removeDestroyedResult := .ok (), destroyResult := .ok () } rfl rfl).2.1).mpr
      ⟨{ state := .destroyed, backupState := .none }, rfl, Or.inl rfl⟩,
   by decide⟩

/-- C4 counterexample: when the organization query raises after the lock
was acquired, neither sweep releases the lock key — both propagate the
error with no `redis.del` in the trace (there is no try/finally), so the
claim that the lock is released on exception paths fails. -/
theorem C4_query_failure_keeps_lock :
    let e : JsError := { response? := none, message := "query failed" }
    let env : OrganizationService.SweepEnv :=
      { lockGranted := true, orgQueryFail := some e, itemQueryFail := none }
    let db : Db := { orgs := [], sandboxes := [], snapshots := [], snapshotRunners := [] }
    (OrganizationService.SweepEvent.lockAcquired
        ∈ (OrganizationService.stopSuspendedOrganizationSandboxes 0 db env).trace
      ∧ OrganizationService.SweepEvent.lockReleased
          ∉ (OrganizationService.stopSuspendedOrganizationSandboxes 0 db env).trace
      ∧ (OrganizationService.stopSuspendedOrganizationSandboxes 0 db env).outcome
          = .error e)
    ∧ (OrganizationService.SweepEvent.lockAcquired
        ∈ (OrganizationService.removeSuspendedOrganizationSnapshotRunners 0 db env).trace
      ∧ OrganizationService.SweepEvent.lockReleased
          ∉ (OrganizationService.removeSuspendedOrganizationSnapshotRunners 0 db env).trace
      ∧ (OrganizationService.removeSuspendedOrganizationSnapshotRunners 0 db env).outcome
          = .error e) := by
  decide

/-- C4 amended: once a sweep job has acquired its lock, it releases the
lock key on normal completion and on the early exit taken when zero
organizations match the query's suspension selection — actively
suspended with `suspendedAt` within the last 7 days, the 24-hour bound
being discarded by the spread overwrite — on which it also issues no
sandbox/runner query; but on paths where a query raises, the lock key
is not released — the error propagates and the lock is left to its
60-second TTL. -/
theorem C4_lock_release_paths :
    ∀ (now : Int) (db : Db) (env : OrganizationService.SweepEnv),
      env.lockGranted = true →
      ((env.orgQueryFail = none → env.itemQueryFail = none →
        OrganizationService.SweepEvent.lockReleased
            ∈ (OrganizationService.stopSuspendedOrganizationSandboxes now db env).trace
        ∧ OrganizationService.SweepEvent.lockReleased
            ∈ (OrganizationService.removeSuspendedOrganizationSnapshotRunners
                now db env).trace)
      ∧ (env.orgQueryFail = none →
          OrganizationService.suspendedWindowOrgs now db.orgs = [] →
          (OrganizationService.stopSuspendedOrganizationSandboxes now db env).trace
              = [.lockAcquired, .orgQuery, .lockReleased]
          ∧ (OrganizationService.removeSuspendedOrganizationSnapshotRunners
              now db env).trace
              = [.lockAcquired, .orgQuery, .lockReleased])
      ∧ (∀ e, env.orgQueryFail = some e →
          (OrganizationService.SweepEvent.lockReleased
              ∉ (OrganizationService.stopSuspendedOrganizationSandboxes now db env).trace
            ∧ (OrganizationService.stopSuspendedOrganizationSandboxes now db env).outcome
                = .error e)
          ∧ (OrganizationService.SweepEvent.lockReleased
              ∉ (OrganizationService.removeSuspendedOrganizationSnapshotRunners
                  now db env).trace
            ∧ (OrganizationService.removeSuspendedOrganizationSnapshotRunners
                now db env).outcome = .error e))
      ∧ (∀ e, env.orgQueryFail = none → env.itemQueryFail = some e →
          OrganizationService.suspendedWindowOrgs now db.orgs ≠ [] →
          (OrganizationService.SweepEvent.lockReleased
              ∉ (OrganizationService.stopSuspendedOrganizationSandboxes now db env).trace
            ∧ (OrganizationService.stopSuspendedOrganizationSandboxes now db env).outcome
                = .error e)
          ∧ (OrganizationService.SweepEvent.lockReleased
              ∉ (OrganizationService.removeSuspendedOrganizationSnapshotRunners
                  now db env).trace
            ∧ (OrganizationService.removeSuspendedOrganizationSnapshotRunners
                now db env).outcome = .error e))) := by
  intro now db env hg
  refine ⟨?_, ?_, ?_, ?_⟩
  · intro ho hi
    by_cases hw : OrganizationService.suspendedWindowOrgs now db.orgs = [] <;>
      simp [OrganizationService.stopSuspendedOrganizationSandboxes,
        OrganizationService.removeSuspendedOrganizationSnapshotRunners, hg, ho, hi, hw]
  · intro ho hw
    simp [OrganizationService.stopSuspendedOrganizationSandboxes,
      OrganizationService.removeSuspendedOrganizationSnapshotRunners, hg, ho, hw]
  · intro e ho
    simp [OrganizationService.stopSuspendedOrganizationSandboxes,
      OrganizationService.removeSuspendedOrganizationSnapshotRunners, hg, ho]
  · intro e ho hi hw
    simp [OrganizationService.stopSuspendedOrganizationSandboxes,
      OrganizationService.removeSuspendedOrganizationSnapshotRunners, hg, ho, hi, hw]

/-- C4 witness: the amended early-exit clause at a concrete run with no
suspended organizations — both sweeps leave exactly the
acquire/query/release trace, with no sandbox or runner query. -/
theorem C4_lock_release_paths_witness :
    (OrganizationService.stopSuspendedOrganizationSandboxes 0
        { orgs := [], sandboxes := [], snapshots := [], snapshotRunners := [] }
        { lockGranted := true, orgQueryFail := none, itemQueryFail := none }).trace
      = [.lockAcquired, .orgQuery, .lockReleased]
    ∧ (OrganizationService.removeSuspendedOrganizationSnapshotRunners 0
        { orgs := [], sandboxes := [], snapshots := [], snapshotRunners := [] }
        { lockGranted := true, orgQueryFail := none, itemQueryFail := none }).trace
      = [.lockAcquired, .orgQuery, .lockReleased] :=
  (C4_lock_release_paths 0
    { orgs := [], sandboxes := [], snapshots := [], snapshotRunners := [] }
    { lockGranted := true, orgQueryFail := none, itemQueryFail := none } rfl).2.1
    rfl (by decide)

/-- C5: evaluation of the stop sweep at the failing input. An
organization suspended one hour before now — strictly inside the
24-hour grace window that the claim (and the code's own comments at the
call site) excludes from the sweep — is nonetheless selected, because
the second spread in `findSuspended` overwrites the `suspendedAt` key
and discards the `LessThan(now - 24h)` bound; the sweep then emits a
stop-requested event for the organization's STARTED sandbox. -/
theorem C5_fresh_suspension_swept :
    let org : Organization :=
      { id := "org1", suspended := true, suspendedAt := some 860400000,
        suspendedUntil := none, suspensionReason := none }
    let db : Db :=
      { orgs := [org]
        sandboxes := [{ id := "sb1", organizationId := "org1",
                        desiredState := .started, state := .started }]
        snapshots := [], snapshotRunners := [] }
    (864000000 - dayMs : Int) < 860400000
    ∧ org ∈ OrganizationService.suspendedWindowOrgs 864000000 db.orgs
    ∧ (OrganizationService.stopSuspendedOrganizationSandboxes 864000000 db
          { lockGranted := true, orgQueryFail := none, itemQueryFail := none }).trace
        = [.lockAcquired, .orgQuery, .sandboxQuery, .emitStop "sb1", .lockReleased] := by
  decide

end Daytona
